import Mathlib

/-!
Shallow embedding of the `file-dialog` nushell plugin command
(`src/main.rs`, `FileDialogCommand::run`), together with proofs about its
validation, request-assembly and result-normalization behaviour.

The embedding models:
  * the host's loosely-typed value model (`NuValue`): the code matches only
    on `Value::String`, `Value::List`, `Value::Record` and treats every
    other variant uniformly, so all other variants collapse to `.other`;
  * the host environment (`Host`): current working directory plus the
    filesystem predicate `PathBuf::from(&val).is_dir()`;
  * the evaluated call (`CallParams`): the two switches and the three
    named optional flag values;
  * the native-dialog builder (`DialogRequest` with `add_filter`,
    `set_title`, `set_location`) and the external dialog presenter
    (`Dialog`), whose responses are inputs to the model;
  * OS paths (`OsPath`), whose conversion to text can fail
    (`into_os_string().into_string()`);
  * the outcome of one invocation (`RunResult`): the returned value or
    labeled error, or a process abort caused by `.expect(..)`, plus a
    flag recording whether the dialog collaborator was invoked.
-/

namespace FileDialog

/-- The host's tagged value model, restricted to the shapes
`FileDialogCommand::run` distinguishes: `Value::String`, `Value::List`,
`Value::Record` (whose keys are strings and which iterates in insertion
order), and everything else collapsed into `other`. -/
inductive NuValue where
  | str (val : String)
  | list (vals : List NuValue)
  | record (fields : List (String × NuValue))
  | other

/-- A `nu_protocol::LabeledError` as built by
`LabeledError::new(msg).with_label(label, call.head)`. -/
structure LabeledError where
  msg : String
  label : String
deriving DecidableEq

/-- Error of `src/main.rs` lines 75-76. -/
def baseDirError : LabeledError :=
  ⟨"dir has an incorrect type/path", "dir has to be a directory"⟩

/-- Error of `src/main.rs` lines 83-84. -/
def titleError : LabeledError :=
  ⟨"title has an incorrect type", "title has to be a string"⟩

/-- Error of `src/main.rs` lines 88-89 (`record_error`). -/
def recordError : LabeledError :=
  ⟨"filter has an incorrect type", "filter has to be a record of List(String)"⟩

/-- Error of `src/main.rs` lines 146-151. -/
def conflictError : LabeledError :=
  ⟨"Cannot select multiple directories",
   "Only one of `--multiple` or `--only-dir` can be used"⟩

/-- The host environment: `engine.get_current_dir()` and the filesystem
check `PathBuf::from(&val).is_dir()`. -/
structure Host where
  cwd : String
  isDir : String → Bool

/-- The evaluated call: `has_flag("dir-only")`, `has_flag("multiple")`,
and the three `get_flag_value` results. -/
structure CallParams where
  dirOnly : Bool
  multiple : Bool
  baseDir : Option NuValue
  title : Option NuValue
  filter : Option NuValue

/-- The assembled native-dialog request: ordered filter groups, optional
title, optional starting location. -/
structure DialogRequest where
  filters : List (String × List String)
  title : Option String
  location : Option String
deriving DecidableEq

/-- `DialogBuilder::file()`: the empty request. -/
def DialogBuilder.file : DialogRequest := ⟨[], none, none⟩

/-- `fd.add_filter(key, value)`: appends one filter group. -/
def add_filter (fd : DialogRequest) (key : String) (exts : List String) :
    DialogRequest :=
  { fd with filters := fd.filters ++ [(key, exts)] }

/-- `fd.set_title(t)`. -/
def set_title (fd : DialogRequest) (t : String) : DialogRequest :=
  { fd with title := some t }

/-- `fd.set_location(bd)`. -/
def set_location (fd : DialogRequest) (bd : String) : DialogRequest :=
  { fd with location := some bd }

/-- An OS path returned by the dialog: either valid text or not
representable as text. -/
inductive OsPath where
  | utf8 (s : String)
  | nonUtf8
deriving DecidableEq

/-- `p.into_os_string().into_string()`: `Ok` exactly on representable
paths. -/
def OsPath.intoString : OsPath → Option String
  | .utf8 s => some s
  | .nonUtf8 => none

/-- The external dialog presenter: its (successful) responses to the three
`show()` calls, as functions of the assembled request. An empty list /
`none` is user cancellation. -/
structure Dialog where
  multiResult : DialogRequest → List OsPath
  singleFileResult : DialogRequest → Option OsPath
  singleDirResult : DialogRequest → Option OsPath

/-- What one invocation of `run` produces: a returned `Value`, a returned
`LabeledError`, or a process abort raised by an `.expect(..)` panic. -/
inductive RunOutcome where
  | ok (v : NuValue)
  | err (e : LabeledError)
  | abort (msg : String)

/-- `true` on `err`, `false` otherwise. -/
def RunOutcome.isErr : RunOutcome → Bool
  | .err _ => true
  | _ => false

/-- The outcome of one invocation together with whether any `show()` call
on the dialog collaborator happened. -/
structure RunResult where
  outcome : RunOutcome
  dialogShown : Bool

/-- `src/main.rs` lines 71-78: resolve `base-dir`. A present value must be
a string naming an existing directory; an absent value falls back to the
current working directory; anything else is `baseDirError`. -/
def resolveBaseDir (host : Host) : Option NuValue →
    Except LabeledError (Option String)
  | some (NuValue.str val) =>
      if host.isDir val then .ok (some val) else .error baseDirError
  | none => .ok (some host.cwd)
  | some _ => .error baseDirError

/-- `src/main.rs` lines 79-86: resolve `title`. -/
def resolveTitle : Option NuValue → Except LabeledError (Option String)
  | some (NuValue.str val) => .ok (some val)
  | none => .ok none
  | some _ => .error titleError

/-- `src/main.rs` lines 92-96: the `filter` value, if present, must be a
record. -/
def resolveFilterRecord : Option NuValue →
    Except LabeledError (Option (List (String × NuValue)))
  | some (NuValue.record val) => .ok (some val)
  | none => .ok none
  | some _ => .error recordError

/-- `src/main.rs` lines 109-114: the inner loop collecting the string
elements of one filter-group list; a non-string element fails. -/
def stringsOfVals : List NuValue → Option (List String)
  | [] => some []
  | NuValue.str val :: rest =>
      match stringsOfVals rest with
      | some tl => some (val :: tl)
      | none => none
  | _ :: _ => none

/-- `src/main.rs` lines 101-125: the outer loop over the record entries,
in iteration order; an entry whose value is not a list of strings fails
with `recordError`, and the first failure aborts the walk. -/
def validateEntries : List (String × NuValue) →
    Except LabeledError (List (String × List String))
  | [] => .ok []
  | (key, value) :: rest =>
      match value with
      | NuValue.list vals =>
          match stringsOfVals vals with
          | none => .error recordError
          | some filters =>
              match validateEntries rest with
              | .error e => .error e
              | .ok fv => .ok ((key, filters) :: fv)
      | _ => .error recordError

/-- `src/main.rs` lines 101-125: `filter_values`, `none` when no `filter`
flag was given. -/
def resolveFilterValues :
    Option (List (String × NuValue)) →
    Except LabeledError (Option (List (String × List String)))
  | some f =>
      match validateEntries f with
      | .error e => .error e
      | .ok fv => .ok (some fv)
  | none => .ok none

/-- `src/main.rs` lines 127-131: apply the validated filter groups, in
order. -/
def applyFilters (fv : Option (List (String × List String)))
    (fd : DialogRequest) : DialogRequest :=
  match fv with
  | some fv => fv.foldl (fun fd kv => add_filter fd kv.1 kv.2) fd
  | none => fd

/-- `src/main.rs` lines 133-136: apply the title, if any. -/
def applyTitle (t : Option String) (fd : DialogRequest) : DialogRequest :=
  match t with
  | some t => set_title fd t
  | none => fd

/-- `src/main.rs` lines 138-141: apply the base directory, if any. -/
def applyLocation (bd : Option String) (fd : DialogRequest) :
    DialogRequest :=
  match bd with
  | some bd => set_location fd bd
  | none => fd

/-- `src/main.rs` lines 70-141: parameter validation and request assembly,
in source order (base dir, then title, then filter shape, then the filter
entry walk; then filters, title and location are applied to the builder).
The first failing validation's error is returned. -/
def buildRequest (host : Host) (call : CallParams) :
    Except LabeledError DialogRequest :=
  match resolveBaseDir host call.baseDir with
  | .error e => .error e
  | .ok base_dir =>
      match resolveTitle call.title with
      | .error e => .error e
      | .ok title =>
          match resolveFilterRecord call.filter with
          | .error e => .error e
          | .ok filter =>
              match resolveFilterValues filter with
              | .error e => .error e
              | .ok filter_values =>
                  .ok (applyLocation base_dir
                        (applyTitle title
                          (applyFilters filter_values DialogBuilder.file)))

/-- `src/main.rs` lines 158-167: convert the multi-select paths to
strings; a path not representable as text panics, modelled as `none`. -/
def mapPaths : List OsPath → Option (List String)
  | [] => some []
  | p :: rest =>
      match p.intoString with
      | none => none
      | some s =>
          match mapPaths rest with
          | none => none
          | some tl => some (s :: tl)

/-- `src/main.rs` lines 176-186: normalize a single-select outcome. A
chosen path becomes its text, an unrepresentable path aborts with the
`"Non utf-8 path"` panic, and cancellation becomes the empty string. -/
def normalizeSingle (result : Option OsPath) : RunResult :=
  match result with
  | some p =>
      match p.intoString with
      | some s => ⟨.ok (.str s), true⟩
      | none => ⟨.abort "Non utf-8 path", true⟩
  | none => ⟨.ok (.str ""), true⟩

/-- `FileDialogCommand::run` (`src/main.rs` lines 63-187): validate and
assemble, then dispatch on `(select_dir, multiple)`: the conflicting
combination errors without showing a dialog; multi-select shows the
multi-file chooser and returns the list of path strings; the two single
modes show their chooser and normalize the optional path. -/
def run (host : Host) (call : CallParams) (dialog : Dialog) : RunResult :=
  match buildRequest host call with
  | .error e => ⟨.err e, false⟩
  | .ok fd =>
      match call.dirOnly, call.multiple with
      | true, true => ⟨.err conflictError, false⟩
      | false, true =>
          match mapPaths (dialog.multiResult fd) with
          | none => ⟨.abort "Non utf-8 path", true⟩
          | some strs => ⟨.ok (.list (strs.map NuValue.str)), true⟩
      | true, false => normalizeSingle (dialog.singleDirResult fd)
      | false, false => normalizeSingle (dialog.singleFileResult fd)

/-- The base-dir validation of lines 71-78, as a boolean predicate on the
flag value: absent, or a string naming an existing directory. -/
def baseDirOk (host : Host) : Option NuValue → Bool
  | some (NuValue.str val) => host.isDir val
  | none => true
  | some _ => false

/-- The title validation of lines 79-86, as a boolean predicate: absent or
a string. -/
def titleOk : Option NuValue → Bool
  | some (NuValue.str _) => true
  | none => true
  | some _ => false

/-- Whether a value is a `Value::String`. -/
def isStringVal : NuValue → Bool
  | NuValue.str _ => true
  | _ => false

/-- Whether a value is a `Value::List` all of whose elements are
strings. -/
def isStringList : NuValue → Bool
  | NuValue.list vals => vals.all isStringVal
  | _ => false

/-- Whether a value has the shape the filter walk accepts: a record each
of whose values is a list of strings. -/
def validFilterShape : NuValue → Bool
  | NuValue.record fields => fields.all (fun kv => isStringList kv.2)
  | _ => false

/-- The filter validation as a whole: absent, or of valid shape. -/
def filterOk : Option NuValue → Bool
  | some v => validFilterShape v
  | none => true

/-- All three flag-value validations at once. -/
def shapeOk (host : Host) (call : CallParams) : Bool :=
  baseDirOk host call.baseDir && titleOk call.title && filterOk call.filter

/-- Which path the collaborator handed back to `run`, per dispatch mode. -/
def returnsPath (call : CallParams) (dialog : Dialog) (fd : DialogRequest)
    (p : OsPath) : Prop :=
  match call.dirOnly, call.multiple with
  | true, true => False
  | false, true => p ∈ dialog.multiResult fd
  | true, false => dialog.singleDirResult fd = some p
  | false, false => dialog.singleFileResult fd = some p

/-! ### Basic lemmas about the validation helpers -/

theorem stringsOfVals_all (vals : List NuValue) (l : List String)
    (h : stringsOfVals vals = some l) : vals.all isStringVal = true := by
  induction vals generalizing l with
  | nil => rfl
  | cons v rest ih =>
      cases v with
      | str s =>
          cases hr : stringsOfVals rest with
          | none => simp [stringsOfVals, hr] at h
          | some tl =>
              simp only [List.all_cons, Bool.and_eq_true]
              exact ⟨rfl, ih tl hr⟩
      | list vs => simp [stringsOfVals] at h
      | record fs => simp [stringsOfVals] at h
      | other => simp [stringsOfVals] at h

theorem stringsOfVals_some_of_all (vals : List NuValue)
    (h : vals.all isStringVal = true) : ∃ l, stringsOfVals vals = some l := by
  induction vals with
  | nil => exact ⟨[], rfl⟩
  | cons v rest ih =>
      simp only [List.all_cons, Bool.and_eq_true] at h
      obtain ⟨l, hl⟩ := ih h.2
      cases v with
      | str s => exact ⟨s :: l, by simp [stringsOfVals, hl]⟩
      | list vs => simp [isStringVal] at h
      | record fs => simp [isStringVal] at h
      | other => simp [isStringVal] at h

theorem stringsOfVals_none (vals : List NuValue)
    (h : vals.all isStringVal = false) : stringsOfVals vals = none := by
  cases hs : stringsOfVals vals with
  | none => rfl
  | some l => rw [stringsOfVals_all vals l hs] at h; cases h

theorem validateEntries_err (fields : List (String × NuValue))
    (h : fields.all (fun kv => isStringList kv.2) = false) :
    validateEntries fields = .error recordError := by
  induction fields with
  | nil => cases h
  | cons kv rest ih =>
      obtain ⟨key, value⟩ := kv
      simp only [List.all_cons, Bool.and_eq_false_iff] at h
      cases value with
      | str s => rfl
      | record fs => rfl
      | other => rfl
      | list vals =>
          cases h with
          | inl hv =>
              have : stringsOfVals vals = none :=
                stringsOfVals_none vals (by simpa [isStringList] using hv)
              simp [validateEntries, this]
          | inr hrest =>
              cases hs : stringsOfVals vals with
              | none => simp [validateEntries, hs]
              | some filters =>
                  simp [validateEntries, hs, ih (by simpa using hrest)]

theorem validateEntries_ok_keys (fields : List (String × NuValue))
    (fv : List (String × List String))
    (h : validateEntries fields = .ok fv) :
    fv.map Prod.fst = fields.map Prod.fst := by
  induction fields generalizing fv with
  | nil =>
      simp only [validateEntries] at h
      cases h
      rfl
  | cons kv rest ih =>
      obtain ⟨key, value⟩ := kv
      cases value with
      | str s => simp [validateEntries] at h
      | record fs => simp [validateEntries] at h
      | other => simp [validateEntries] at h
      | list vals =>
          cases hs : stringsOfVals vals with
          | none => simp [validateEntries, hs] at h
          | some filters =>
              cases hr : validateEntries rest with
              | error e => simp [validateEntries, hs, hr] at h
              | ok fv2 =>
                  simp only [validateEntries, hs, hr] at h
                  cases h
                  simp [ih fv2 hr]

theorem validateEntries_ok_of_all (fields : List (String × NuValue))
    (h : fields.all (fun kv => isStringList kv.2) = true) :
    ∃ fv, validateEntries fields = .ok fv := by
  induction fields with
  | nil => exact ⟨[], rfl⟩
  | cons kv rest ih =>
      obtain ⟨key, value⟩ := kv
      simp only [List.all_cons, Bool.and_eq_true] at h
      obtain ⟨fv, hfv⟩ := ih h.2
      cases value with
      | str s => simp [isStringList] at h
      | record fs => simp [isStringList] at h
      | other => simp [isStringList] at h
      | list vals =>
          obtain ⟨l, hl⟩ :=
            stringsOfVals_some_of_all vals (by simpa [isStringList] using h.1)
          exact ⟨(key, l) :: fv, by simp [validateEntries, hl, hfv]⟩

theorem validateEntries_empty_mem (fields : List (String × NuValue))
    (fv : List (String × List String)) (k : String)
    (h : validateEntries fields = .ok fv)
    (hm : (k, NuValue.list []) ∈ fields) : (k, ([] : List String)) ∈ fv := by
  induction fields generalizing fv with
  | nil => cases hm
  | cons kv rest ih =>
      obtain ⟨key, value⟩ := kv
      cases value with
      | str s => simp [validateEntries] at h
      | record fs => simp [validateEntries] at h
      | other => simp [validateEntries] at h
      | list vals =>
          cases hs : stringsOfVals vals with
          | none => simp [validateEntries, hs] at h
          | some filters =>
              cases hr : validateEntries rest with
              | error e => simp [validateEntries, hs, hr] at h
              | ok fv2 =>
                  simp only [validateEntries, hs, hr] at h
                  cases h
                  cases hm with
                  | head =>
                      have : filters = ([] : List String) := by
                        simpa [stringsOfVals] using hs.symm
                      rw [this]
                      exact List.mem_cons_self _ _
                  | tail _ hm2 => exact List.mem_cons_of_mem _ (ih fv2 hr hm2)

/-! ### Lemmas about request assembly -/

theorem foldl_add_filter (fv : List (String × List String))
    (fd : DialogRequest) :
    fv.foldl (fun fd kv => add_filter fd kv.1 kv.2) fd =
      ⟨fd.filters ++ fv, fd.title, fd.location⟩ := by
  induction fv generalizing fd with
  | nil => simp
  | cons kv rest ih =>
      rw [List.foldl_cons, ih]
      simp [add_filter]

theorem applyFilters_some (fv : List (String × List String))
    (fd : DialogRequest) :
    applyFilters (some fv) fd = ⟨fd.filters ++ fv, fd.title, fd.location⟩ :=
  foldl_add_filter fv fd

theorem applyTitle_filters (t : Option String) (fd : DialogRequest) :
    (applyTitle t fd).filters = fd.filters := by
  cases t <;> rfl

theorem applyTitle_location (t : Option String) (fd : DialogRequest) :
    (applyTitle t fd).location = fd.location := by
  cases t <;> rfl

theorem applyLocation_filters (bd : Option String) (fd : DialogRequest) :
    (applyLocation bd fd).filters = fd.filters := by
  cases bd <;> rfl

/-! ### Lemmas about the resolvers and `buildRequest` -/

theorem resolveBaseDir_ok (host : Host) (ob : Option NuValue)
    (h : baseDirOk host ob = true) :
    ∃ b, resolveBaseDir host ob = .ok b := by
  cases ob with
  | none => exact ⟨some host.cwd, rfl⟩
  | some v =>
      cases v with
      | str s =>
          refine ⟨some s, ?_⟩
          have hd : host.isDir s = true := h
          simp [resolveBaseDir, hd]
      | list vs => cases h
      | record fs => cases h
      | other => cases h

theorem resolveBaseDir_err (host : Host) (ob : Option NuValue)
    (h : baseDirOk host ob = false) :
    resolveBaseDir host ob = .error baseDirError := by
  cases ob with
  | none => cases h
  | some v =>
      cases v with
      | str s =>
          have hd : host.isDir s = false := h
          simp [resolveBaseDir, hd]
      | list vs => rfl
      | record fs => rfl
      | other => rfl

theorem resolveTitle_ok (ot : Option NuValue) (h : titleOk ot = true) :
    ∃ t, resolveTitle ot = .ok t := by
  cases ot with
  | none => exact ⟨none, rfl⟩
  | some v =>
      cases v with
      | str s => exact ⟨some s, rfl⟩
      | list vs => cases h
      | record fs => cases h
      | other => cases h

theorem resolveTitle_err (ot : Option NuValue) (h : titleOk ot = false) :
    resolveTitle ot = .error titleError := by
  cases ot with
  | none => cases h
  | some v =>
      cases v with
      | str s => cases h
      | list vs => rfl
      | record fs => rfl
      | other => rfl

theorem buildRequest_err_filter (host : Host) (call : CallParams)
    (v : NuValue)
    (hbase : baseDirOk host call.baseDir = true)
    (htitle : titleOk call.title = true)
    (hf : call.filter = some v)
    (hbad : validFilterShape v = false) :
    buildRequest host call = .error recordError := by
  obtain ⟨b, hb⟩ := resolveBaseDir_ok host call.baseDir hbase
  obtain ⟨t, ht⟩ := resolveTitle_ok call.title htitle
  cases v with
  | record fields =>
      have hve : validateEntries fields = .error recordError :=
        validateEntries_err fields (by simpa [validFilterShape] using hbad)
      simp [buildRequest, hb, ht, hf, resolveFilterRecord,
        resolveFilterValues, hve]
  | str s => simp [buildRequest, hb, ht, hf, resolveFilterRecord]
  | list vs => simp [buildRequest, hb, ht, hf, resolveFilterRecord]
  | other => simp [buildRequest, hb, ht, hf, resolveFilterRecord]

theorem run_of_err (host : Host) (call : CallParams) (dialog : Dialog)
    (e : LabeledError) (h : buildRequest host call = .error e) :
    run host call dialog = ⟨.err e, false⟩ := by
  simp [run, h]

theorem buildRequest_err_of_shape (host : Host) (call : CallParams)
    (h : shapeOk host call = false) :
    ∃ e, buildRequest host call = .error e ∧
      (e = baseDirError ∨ e = titleError ∨ e = recordError) := by
  cases hb : baseDirOk host call.baseDir with
  | false =>
      exact ⟨baseDirError,
        by simp [buildRequest, resolveBaseDir_err host call.baseDir hb],
        Or.inl rfl⟩
  | true =>
      cases ht : titleOk call.title with
      | false =>
          obtain ⟨b, hrb⟩ := resolveBaseDir_ok host call.baseDir hb
          exact ⟨titleError,
            by simp [buildRequest, hrb, resolveTitle_err call.title ht],
            Or.inr (Or.inl rfl)⟩
      | true =>
          cases hfo : filterOk call.filter with
          | true => rw [shapeOk, hb, ht, hfo] at h; cases h
          | false =>
              cases hfv : call.filter with
              | none => rw [hfv] at hfo; cases hfo
              | some v =>
                  refine ⟨recordError, ?_, Or.inr (Or.inr rfl)⟩
                  refine buildRequest_err_filter host call v hb ht hfv ?_
                  rw [hfv] at hfo
                  exact hfo

theorem normalizeSingle_shown (r : Option OsPath) :
    (normalizeSingle r).dialogShown = true := by
  cases r with
  | none => rfl
  | some p => cases p <;> rfl

theorem mapPaths_none_of_mem (l : List OsPath) (p : OsPath)
    (hp : p ∈ l) (hbad : p.intoString = none) : mapPaths l = none := by
  induction l with
  | nil => cases hp
  | cons q rest ih =>
      cases hp with
      | head => simp [mapPaths, hbad]
      | tail _ hm =>
          cases hq : q.intoString with
          | none => simp [mapPaths, hq]
          | some s => simp [mapPaths, hq, ih hm]

/-! ### Concrete hosts, dialogs and calls used by witnesses and
counterexamples -/

/-- A host whose filesystem check accepts every path. -/
def host0 : Host := ⟨"/", fun _ => true⟩

/-- A host whose filesystem check rejects every path. -/
def hostNoDir : Host := ⟨"/", fun _ => false⟩

/-- A collaborator that always reports cancellation. -/
def dialogNone : Dialog := ⟨fun _ => [], fun _ => none, fun _ => none⟩

/-- A collaborator whose single-file chooser returns a path that is not
representable as text. -/
def dialogBad : Dialog :=
  ⟨fun _ => [], fun _ => some OsPath.nonUtf8, fun _ => none⟩

/-- A collaborator whose single-file chooser returns `/home/u/pic.png`. -/
def dialogPic : Dialog :=
  ⟨fun _ => [], fun _ => some (OsPath.utf8 "/home/u/pic.png"), fun _ => none⟩

/-- A call with no flags and no flag values. -/
def plainCall : CallParams := ⟨false, false, none, none, none⟩

/-- Sanity scenario: single-file mode with an image filter; the
collaborator returns `/home/u/pic.png` and the command returns that
string. -/
theorem scenario_single_file_pic :
    run host0
      ⟨false, false, none, none,
        some (NuValue.record
          [("Images", NuValue.list [NuValue.str "png", NuValue.str "jpg"])])⟩
      dialogPic =
    ⟨.ok (.str "/home/u/pic.png"), true⟩ := rfl

/-! ### The claims -/

/-- C1: for every parameter set that passes the type and base-directory
validations, if both `--multiple` and `--dir-only` are set, `run` returns
the `ConflictingOptions` labeled error — regardless of title, base
directory and filters — and the dialog collaborator is never invoked. -/
theorem C1_conflicting_flags (host : Host) (call : CallParams)
    (dialog : Dialog) (fd : DialogRequest)
    (hval : buildRequest host call = .ok fd)
    (hd : call.dirOnly = true) (hm : call.multiple = true) :
    run host call dialog = ⟨.err conflictError, false⟩ := by
  simp [run, hval, hd, hm]

/-- Witness for C1 at a concrete input. -/
theorem C1_conflicting_flags_witness :
    run host0 ⟨true, true, none, none, none⟩ dialogNone =
      ⟨.err conflictError, false⟩ :=
  C1_conflicting_flags host0 ⟨true, true, none, none, none⟩ dialogNone
    ⟨[], none, some "/"⟩ rfl rfl rfl

/-- C4: whenever the `base-dir` flag is absent and validation succeeds,
the assembled request's starting location is the host's current working
directory. -/
theorem C4_default_base_dir (host : Host) (call : CallParams)
    (fd : DialogRequest)
    (hb : call.baseDir = none)
    (hval : buildRequest host call = .ok fd) :
    fd.location = some host.cwd := by
  rw [buildRequest, hb] at hval
  simp only [resolveBaseDir] at hval
  split at hval
  · cases hval
  · split at hval
    · cases hval
    · split at hval
      · cases hval
      · cases hval
        rfl

/-- Witness for C4 at a concrete input. -/
theorem C4_default_base_dir_witness :
    (⟨[], none, some "/"⟩ : DialogRequest).location = some host0.cwd :=
  C4_default_base_dir host0 plainCall ⟨[], none, some "/"⟩ rfl rfl

/-- C5: whenever the `base-dir` flag is present but is not a string naming
a directory that exists at validation time, `run` returns the
`InvalidBaseDirectory` labeled error and the dialog collaborator is never
invoked. -/
theorem C5_invalid_base_dir (host : Host) (call : CallParams)
    (dialog : Dialog) (v : NuValue)
    (hb : call.baseDir = some v)
    (hbad : ∀ s, v = NuValue.str s → host.isDir s = false) :
    run host call dialog = ⟨.err baseDirError, false⟩ := by
  have herr : resolveBaseDir host call.baseDir = .error baseDirError := by
    rw [hb]
    cases v with
    | str s => simp [resolveBaseDir, hbad s rfl]
    | list vs => rfl
    | record fs => rfl
    | other => rfl
  simp [run, buildRequest, herr]

/-- Witness for C5 at a concrete input: `base-dir` is a string but no
such directory exists. -/
theorem C5_invalid_base_dir_witness :
    run hostNoDir ⟨false, false, some (NuValue.str "/nope"), none, none⟩
      dialogNone = ⟨.err baseDirError, false⟩ :=
  C5_invalid_base_dir hostNoDir
    ⟨false, false, some (NuValue.str "/nope"), none, none⟩ dialogNone
    (NuValue.str "/nope") rfl (fun _ _ => rfl)

/-- C6: whenever validation succeeds and the collaborator reports
cancellation, `run` succeeds: multi-select mode returns the empty list,
and each single-select mode returns the empty string. -/
theorem C6_cancellation (host : Host) (call : CallParams) (dialog : Dialog)
    (fd : DialogRequest) (hval : buildRequest host call = .ok fd) :
    (call.dirOnly = false → call.multiple = true →
      dialog.multiResult fd = [] →
      run host call dialog = ⟨.ok (.list []), true⟩) ∧
    (call.dirOnly = false → call.multiple = false →
      dialog.singleFileResult fd = none →
      run host call dialog = ⟨.ok (.str ""), true⟩) ∧
    (call.dirOnly = true → call.multiple = false →
      dialog.singleDirResult fd = none →
      run host call dialog = ⟨.ok (.str ""), true⟩) := by
  refine ⟨fun hd hm hc => ?_, fun hd hm hc => ?_, fun hd hm hc => ?_⟩
  · simp [run, hval, hd, hm, hc, mapPaths]
  · simp [run, hval, hd, hm, hc, normalizeSingle]
  · simp [run, hval, hd, hm, hc, normalizeSingle]

/-- Witness for C6 at a concrete input: multi-select cancellation gives
the empty list. -/
theorem C6_cancellation_witness :
    run host0 ⟨false, true, none, none, none⟩ dialogNone =
      ⟨.ok (.list []), true⟩ :=
  (C6_cancellation host0 ⟨false, true, none, none, none⟩ dialogNone
    ⟨[], none, some "/"⟩ rfl).1 rfl rfl rfl

/-- C2 counterexample: with valid parameters and a collaborator that
returns a path not representable as text, `run` aborts via the
`"Non utf-8 path"` panic; its outcome is not a labeled error returned to
the caller, contradicting the claim. -/
theorem C2_counterexample :
    run host0 plainCall dialogBad = ⟨.abort "Non utf-8 path", true⟩ ∧
    (run host0 plainCall dialogBad).outcome.isErr = false :=
  ⟨rfl, rfl⟩

/-- C2 amended: for every path returned by the dialog collaborator that
cannot be represented as valid text, `run` surfaces the failure — it is
not dropped or substituted — but as a process abort carrying the panic
message `"Non utf-8 path"`, not as a labeled error returned to the
caller. -/
theorem C2_unrepresentable_path_aborts (host : Host) (call : CallParams)
    (dialog : Dialog) (fd : DialogRequest) (p : OsPath)
    (hval : buildRequest host call = .ok fd)
    (hret : returnsPath call dialog fd p)
    (hbad : p.intoString = none) :
    (run host call dialog).outcome = RunOutcome.abort "Non utf-8 path" := by
  cases hd : call.dirOnly <;> cases hm : call.multiple <;>
    simp only [returnsPath, hd, hm] at hret
  · rw [run, hval]
    simp only [hd, hm]
    rw [hret]
    simp [normalizeSingle, hbad]
  · have hmp : mapPaths (dialog.multiResult fd) = none :=
      mapPaths_none_of_mem _ p hret hbad
    simp [run, hval, hd, hm, hmp]
  · rw [run, hval]
    simp only [hd, hm]
    rw [hret]
    simp [normalizeSingle, hbad]

/-- Witness for the amended C2 at a concrete input. -/
theorem C2_unrepresentable_path_aborts_witness :
    (run host0 plainCall dialogBad).outcome =
      RunOutcome.abort "Non utf-8 path" :=
  C2_unrepresentable_path_aborts host0 plainCall dialogBad
    ⟨[], none, some "/"⟩ OsPath.nonUtf8 rfl rfl rfl

/-- C3: when the base-dir and title validations pass and the `filter`
value is present with an invalid shape (not a record, or some entry not a
list, or some list element not a string), `run` returns the
`InvalidFilter` labeled error, the dialog collaborator is never invoked,
and no request is assembled (so no filter group is partially applied). -/
theorem C3_invalid_filter (host : Host) (call : CallParams)
    (dialog : Dialog) (v : NuValue)
    (hbase : baseDirOk host call.baseDir = true)
    (htitle : titleOk call.title = true)
    (hf : call.filter = some v)
    (hbad : validFilterShape v = false) :
    buildRequest host call = .error recordError ∧
    run host call dialog = ⟨.err recordError, false⟩ := by
  have h := buildRequest_err_filter host call v hbase htitle hf hbad
  exact ⟨h, run_of_err host call dialog recordError h⟩

/-- Witness for C3 at a concrete input: a string as the `filter` value. -/
theorem C3_invalid_filter_witness :
    buildRequest host0
      ⟨false, false, none, none, some (NuValue.str "x")⟩ =
      .error recordError ∧
    run host0 ⟨false, false, none, none, some (NuValue.str "x")⟩
      dialogNone = ⟨.err recordError, false⟩ :=
  C3_invalid_filter host0
    ⟨false, false, none, none, some (NuValue.str "x")⟩ dialogNone
    (NuValue.str "x") rfl rfl rfl rfl

/-- C7: for every valid filter mapping, the filter groups of the
assembled request carry the keys of the supplied record in the same
order. -/
theorem C7_filter_order (host : Host) (call : CallParams)
    (fd : DialogRequest) (fields : List (String × NuValue))
    (hf : call.filter = some (NuValue.record fields))
    (hval : buildRequest host call = .ok fd) :
    fd.filters.map Prod.fst = fields.map Prod.fst := by
  rw [buildRequest, hf] at hval
  split at hval
  · cases hval
  · split at hval
    · cases hval
    · simp only [resolveFilterRecord, resolveFilterValues] at hval
      cases hve : validateEntries fields with
      | error e => rw [hve] at hval; simp at hval
      | ok fv =>
          rw [hve] at hval
          simp only at hval
          cases hval
          rw [applyLocation_filters, applyTitle_filters, applyFilters_some]
          simpa using validateEntries_ok_keys fields fv hve

/-- Witness for C7 at a concrete input with two filter groups. -/
theorem C7_filter_order_witness :
    (⟨[("A", ["png"]), ("B", [])], none, some "/"⟩ :
        DialogRequest).filters.map Prod.fst =
      ([("A", NuValue.list [NuValue.str "png"]), ("B", NuValue.list [])] :
        List (String × NuValue)).map Prod.fst :=
  C7_filter_order host0
    ⟨false, false, none, none,
      some (NuValue.record
        [("A", NuValue.list [NuValue.str "png"]), ("B", NuValue.list [])])⟩
    ⟨[("A", ["png"]), ("B", [])], none, some "/"⟩
    [("A", NuValue.list [NuValue.str "png"]), ("B", NuValue.list [])]
    rfl rfl

/-- The call of the C8 counterexample: a filter record with the single
entry `X: []`. -/
def call8 : CallParams :=
  ⟨false, false, none, none,
    some (NuValue.record [("X", NuValue.list [])])⟩

/-- C8 counterexample: a filter entry whose value is the empty list
passes validation — the request is assembled with the filter group
`("X", [])` and the invocation succeeds — contradicting the claim that an
empty sequence does not pass validation. -/
theorem C8_counterexample :
    buildRequest host0 call8 = .ok ⟨[("X", [])], none, some "/"⟩ ∧
    run host0 call8 dialogNone = ⟨.ok (.str ""), true⟩ :=
  ⟨rfl, rfl⟩

/-- C8 amended: each filter group maps its label to a possibly empty
sequence of extension strings; an entry whose value is an empty list
passes validation and contributes a filter group with an empty extension
list to the assembled request. -/
theorem C8_empty_filter_group_accepted (host : Host) (call : CallParams)
    (fields : List (String × NuValue))
    (hbase : baseDirOk host call.baseDir = true)
    (htitle : titleOk call.title = true)
    (hf : call.filter = some (NuValue.record fields))
    (hall : fields.all (fun kv => isStringList kv.2) = true) :
    ∃ fd, buildRequest host call = .ok fd ∧
      fd.filters.map Prod.fst = fields.map Prod.fst ∧
      ∀ k, (k, NuValue.list []) ∈ fields →
        (k, ([] : List String)) ∈ fd.filters := by
  obtain ⟨b, hb⟩ := resolveBaseDir_ok host call.baseDir hbase
  obtain ⟨t, ht⟩ := resolveTitle_ok call.title htitle
  obtain ⟨fv, hfv⟩ := validateEntries_ok_of_all fields hall
  refine ⟨applyLocation b (applyTitle t
      (applyFilters (some fv) DialogBuilder.file)), ?_, ?_, ?_⟩
  · simp [buildRequest, hb, ht, hf, resolveFilterRecord,
      resolveFilterValues, hfv]
  · rw [applyLocation_filters, applyTitle_filters, applyFilters_some]
    simpa using validateEntries_ok_keys fields fv hfv
  · intro k hk
    rw [applyLocation_filters, applyTitle_filters, applyFilters_some]
    exact List.mem_append.mpr
      (Or.inr (validateEntries_empty_mem fields fv k hfv hk))

/-- Witness for the amended C8 at the concrete input of the
counterexample. -/
theorem C8_empty_filter_group_accepted_witness :
    ∃ fd, buildRequest host0 call8 = .ok fd ∧
      fd.filters.map Prod.fst =
        ([("X", NuValue.list [])] : List (String × NuValue)).map Prod.fst ∧
      ∀ k, (k, NuValue.list []) ∈
          ([("X", NuValue.list [])] : List (String × NuValue)) →
        (k, ([] : List String)) ∈ fd.filters :=
  C8_empty_filter_group_accepted host0 call8 [("X", NuValue.list [])]
    rfl rfl rfl rfl

/-- C9: when some flag-value validation fails and both `--multiple` and
`--dir-only` are set, `run` reports the type error — one of
`InvalidBaseDirectory`, `InvalidTitle`, `InvalidFilter` — and not
`ConflictingOptions`, and no dialog is shown. -/
theorem C9_type_errors_first (host : Host) (call : CallParams)
    (dialog : Dialog)
    (_hd : call.dirOnly = true) (_hm : call.multiple = true)
    (hbad : shapeOk host call = false) :
    ∃ e, run host call dialog = ⟨.err e, false⟩ ∧
      e ≠ conflictError ∧
      (e = baseDirError ∨ e = titleError ∨ e = recordError) := by
  obtain ⟨e, he, hcases⟩ := buildRequest_err_of_shape host call hbad
  refine ⟨e, run_of_err host call dialog e he, ?_, hcases⟩
  rcases hcases with h | h | h <;> rw [h] <;> decide

/-- Witness for C9 at a concrete input: both flags set and an invalid
title. -/
theorem C9_type_errors_first_witness :
    ∃ e, run host0 ⟨true, true, none, some (NuValue.list []), none⟩
        dialogNone = ⟨.err e, false⟩ ∧
      e ≠ conflictError ∧
      (e = baseDirError ∨ e = titleError ∨ e = recordError) :=
  C9_type_errors_first host0
    ⟨true, true, none, some (NuValue.list []), none⟩ dialogNone
    rfl rfl rfl

theorem run_shown (host : Host) (call : CallParams) (dialog : Dialog)
    (fd : DialogRequest)
    (hok : buildRequest host call = .ok fd)
    (hconf : (call.dirOnly && call.multiple) = false) :
    (run host call dialog).dialogShown = true := by
  cases hd : call.dirOnly <;> cases hm : call.multiple
  · simp [run, hok, hd, hm, normalizeSingle_shown]
  · cases hmp : mapPaths (dialog.multiResult fd) <;>
      simp [run, hok, hd, hm, hmp]
  · simp [run, hok, hd, hm, normalizeSingle_shown]
  · rw [hd, hm] at hconf; cases hconf

/-- C10: a present `filter` value that is a record with zero entries
passes validation — no `InvalidFilter` error — the assembled request has
no filter groups, and the dialog collaborator is still invoked (absent
the conflicting flag combination). -/
theorem C10_empty_record_ok (host : Host) (call : CallParams)
    (dialog : Dialog)
    (hbase : baseDirOk host call.baseDir = true)
    (htitle : titleOk call.title = true)
    (hf : call.filter = some (NuValue.record []))
    (hconf : (call.dirOnly && call.multiple) = false) :
    ∃ fd, buildRequest host call = .ok fd ∧ fd.filters = [] ∧
      (run host call dialog).dialogShown = true := by
  obtain ⟨b, hb⟩ := resolveBaseDir_ok host call.baseDir hbase
  obtain ⟨t, ht⟩ := resolveTitle_ok call.title htitle
  have hok : buildRequest host call =
      .ok (applyLocation b (applyTitle t
        (applyFilters (some []) DialogBuilder.file))) := by
    simp [buildRequest, hb, ht, hf, resolveFilterRecord,
      resolveFilterValues, validateEntries]
  refine ⟨_, hok, ?_, run_shown host call dialog _ hok hconf⟩
  rw [applyLocation_filters, applyTitle_filters]
  rfl

/-- Witness for C10 at a concrete input. -/
theorem C10_empty_record_ok_witness :
    ∃ fd, buildRequest host0
        ⟨false, false, none, none, some (NuValue.record [])⟩ = .ok fd ∧
      fd.filters = [] ∧
      (run host0 ⟨false, false, none, none, some (NuValue.record [])⟩
        dialogNone).dialogShown = true :=
  C10_empty_record_ok host0
    ⟨false, false, none, none, some (NuValue.record [])⟩ dialogNone
    rfl rfl rfl rfl

end FileDialog
